import Mathlib

/-
A shallow embedding of the turtle_graphics Go library (yalue/turtle_graphics).

Modelling conventions:
* Go float64 values are modelled as real numbers; the geometric claims below
  are about the algorithms' exact arithmetic, not IEEE rounding.
* Go's `int(x)` conversion of a float and the integer part used by `math.Mod`
  truncate toward zero; both are modelled by `goTrunc`.
* Go methods that mutate a receiver in place and return an `error` are
  modelled as functions returning the updated value; an instruction's `apply`
  returns `(optional error, updated turtle, updated canvas state)`, so an
  early `return err` that mutated nothing shows up as the unchanged state.
* Go `error` values built with `fmt.Errorf` are modelled structurally: a
  message, optionally wrapping an inner error (`%w`).  The replay wrapper in
  `RenderToCanvas` interpolates the 1-based index, the total count and the
  instruction's `String()` description into its message; it is modelled by a
  constructor carrying the index, the total and the instruction itself (the
  description is a pure function of the instruction).
-/

namespace TurtleGraphics

/-- Go `int(x)` on a float64, and the integer multiple used by `math.Mod`:
truncation toward zero. -/
noncomputable def goTrunc (r : ℝ) : ℤ :=
  if 0 ≤ r then ⌊r⌋ else ⌈r⌉

/-- Go `math.Mod x y`: the remainder `x - y*trunc(x/y)`, sign of the dividend. -/
noncomputable def goMod (x y : ℝ) : ℝ :=
  x - y * goTrunc (x / y)

/-- Go integer division truncates toward zero (`Int.tdiv`). -/
def goDiv (a b : ℤ) : ℤ :=
  Int.tdiv a b

/-- `moveDegrees` from turtle_graphics.go: advance `(x, y)` by `distance`
along the heading `angle` (in degrees). -/
noncomputable def moveDegrees (x y angle distance : ℝ) : ℝ × ℝ :=
  let radians := angle * Real.pi / 180
  (x + Real.cos radians * distance, y + Real.sin radians * distance)

/-- Model of `image/color.Color` through its RGBA components. -/
structure Color where
  r : ℕ
  g : ℕ
  b : ℕ
  a : ℕ
  deriving DecidableEq

/-- `color.Black` (zero gray, full alpha). -/
def blackColor : Color := ⟨0, 0, 0, 255⟩

/-- The zero color of a freshly allocated `image.RGBA` buffer. -/
def zeroColor : Color := ⟨0, 0, 0, 0⟩

/-- The `StrokeStyle` interface, modelled by its one required capability
(`GetColor`), realised by `basicStrokeStyle`. -/
structure StrokeStyle where
  c : Color

def StrokeStyle.GetColor (s : StrokeStyle) : Color := s.c

/-- `GetColorStyle` from turtle_graphics.go. -/
def GetColorStyle (c : Color) : StrokeStyle := ⟨c⟩

/-- The closed set of turtle instructions (moveForwardInstruction,
turnInstruction, setStyleInstruction, moveArcInstruction,
pushPositionInstruction, popPositionInstruction). -/
inductive Instruction where
  | moveForward (distance : ℝ)
  | turn (degrees : ℝ)
  | setStyle (style : StrokeStyle)
  | moveArc (radius : ℝ) (degrees : ℝ)
  | pushPosition
  | popPosition

/-- Go error values: a message, possibly wrapping an inner error (`%w`).
`renderWrap` models the wrapper made by `RenderToCanvas`, which interpolates
the 1-based instruction index, the total instruction count and the
instruction's `String()` description (a function of the instruction). -/
inductive GoErr where
  | mk (msg : String)
  | wrap (msg : String) (inner : GoErr)
  | renderWrap (index : ℕ) (total : ℕ) (instr : Instruction) (inner : GoErr)

/-- `turtlePosition`: coordinates plus the heading, in degrees. -/
structure TurtlePosition where
  x : ℝ
  y : ℝ
  angle : ℝ

/-- The `Turtle`: live position, position stack, instruction list. -/
structure Turtle where
  position : TurtlePosition
  positionStack : List TurtlePosition
  instructions : List Instruction

/-- `NewTurtle`: origin, facing 0 degrees, empty stack, no instructions. -/
def NewTurtle : Turtle := ⟨⟨0, 0, 0⟩, [], []⟩

def Turtle.getPosition (t : Turtle) : ℝ × ℝ × ℝ :=
  (t.position.x, t.position.y, t.position.angle)

/-- The `Canvas` interface: each operation consumes a canvas state of type `σ`
and either fails with a Go error or returns the updated state. -/
structure Canvas (σ : Type) where
  SetStyle : σ → StrokeStyle → Except GoErr σ
  DrawLine : σ → ℝ → ℝ → ℝ → ℝ → Except GoErr σ
  DrawArc : σ → ℝ → ℝ → ℝ → ℝ → ℝ → Except GoErr σ

/-- `turtleInstruction.apply`: runs one instruction against the turtle and a
canvas state.  Returns `(optional error, turtle, canvas state)`; on an error
the turtle and canvas state carried are the ones at the Go `return` point. -/
noncomputable def Instruction.apply {σ : Type} (n : Instruction) (t : Turtle)
    (c : Canvas σ) (s : σ) : Option GoErr × Turtle × σ :=
  match n with
  | .moveForward distance =>
      match c.DrawLine s t.position.x t.position.y t.position.angle distance with
      | .error e => (some (.wrap "Failed applying move-forward instruction" e), t, s)
      | .ok s2 =>
          let p := moveDegrees t.position.x t.position.y t.position.angle distance
          (none, { t with position := { t.position with x := p.1, y := p.2 } }, s2)
  | .turn degrees =>
      (none, { t with position :=
        { t.position with angle := goMod (degrees + t.position.angle) 360 } }, s)
  | .setStyle style =>
      match c.SetStyle s style with
      | .error e => (some e, t, s)
      | .ok s2 => (none, t, s2)
  | .moveArc radius degrees =>
      match c.DrawArc s t.position.x t.position.y t.position.angle radius degrees with
      | .error e => (some e, t, s)
      | .ok s2 =>
          let center := moveDegrees t.position.x t.position.y (t.position.angle + 90) radius
          let p := moveDegrees center.1 center.2 (degrees + (t.position.angle - 90)) radius
          (none, { t with position :=
            ⟨p.1, p.2, goMod (t.position.angle + degrees) 360⟩ }, s2)
  | .pushPosition =>
      (none, { t with positionStack := t.positionStack ++ [t.position] }, s)
  | .popPosition =>
      if t.positionStack.length = 0 then
        (some (.mk "Can't pop the turtle's position: empty stack"), t, s)
      else
        let topIndex := t.positionStack.length - 1
        (none, { t with position := t.positionStack.getD topIndex ⟨0, 0, 0⟩,
                        positionStack := t.positionStack.take topIndex }, s)

/-- The state `RenderToCanvas` starts every replay from: position `(0,0,0)`,
empty stack, same instruction list. -/
def resetTurtle (t : Turtle) : Turtle :=
  { t with positionStack := ([] : List TurtlePosition), position := ⟨0, 0, 0⟩ }

/-- The replay loop of `RenderToCanvas`: applies the instructions in order,
wrapping the first failure with its 1-based index, the total count and the
failing instruction. -/
noncomputable def renderLoop {σ : Type} (c : Canvas σ) (total : ℕ) :
    List Instruction → ℕ → Turtle → σ → Option GoErr × Turtle × σ
  | [], _, t, s => (none, t, s)
  | n :: rest, i, t, s =>
      match n.apply t c s with
      | (some e, t2, s2) => (some (.renderWrap (i + 1) total n e), t2, s2)
      | (none, t2, s2) => renderLoop c total rest (i + 1) t2 s2

/-- `Turtle.RenderToCanvas`: reset the position and the stack, then replay
every stored instruction in order. -/
noncomputable def Turtle.RenderToCanvas {σ : Type} (t : Turtle) (c : Canvas σ)
    (s : σ) : Option GoErr × Turtle × σ :=
  renderLoop c t.instructions.length t.instructions 0 (resetTurtle t) s

/-- Sequential application of a list of instructions, without the replay
loop's error wrapping: used to state facts about a replay's prefixes. -/
noncomputable def runInstructions {σ : Type} (c : Canvas σ) :
    List Instruction → Turtle → σ → Option GoErr × Turtle × σ
  | [], t, s => (none, t, s)
  | n :: rest, t, s =>
      match n.apply t c s with
      | (some e, t2, s2) => (some e, t2, s2)
      | (none, t2, s2) => runInstructions c rest t2 s2

/-- Instruction-builder API: `Turtle.MoveForward`. -/
def Turtle.MoveForward (t : Turtle) (distance : ℝ) : Turtle :=
  { t with instructions := t.instructions ++ [.moveForward distance] }

/-- Instruction-builder API: `Turtle.Turn`. -/
def Turtle.Turn (t : Turtle) (degrees : ℝ) : Turtle :=
  { t with instructions := t.instructions ++ [.turn degrees] }

/-- Instruction-builder API: `Turtle.SetStyle`. -/
def Turtle.SetStyle (t : Turtle) (style : StrokeStyle) : Turtle :=
  { t with instructions := t.instructions ++ [.setStyle style] }

/-- Instruction-builder API: `Turtle.MoveArc`. -/
def Turtle.MoveArc (t : Turtle) (radius degrees : ℝ) : Turtle :=
  { t with instructions := t.instructions ++ [.moveArc radius degrees] }

/-- Instruction-builder API: `Turtle.PushPosition`. -/
def Turtle.PushPosition (t : Turtle) : Turtle :=
  { t with instructions := t.instructions ++ [.pushPosition] }

/-- Instruction-builder API: `Turtle.PopPosition`. -/
def Turtle.PopPosition (t : Turtle) : Turtle :=
  { t with instructions := t.instructions ++ [.popPosition] }

/-- The `DummyCanvas`: bounds accumulated so far plus the lazy-initialization
flag. -/
structure DummyCanvas where
  minX : ℝ
  maxX : ℝ
  minY : ℝ
  maxY : ℝ
  initialized : Bool

/-- `NewDummyCanvas`. -/
def NewDummyCanvas : DummyCanvas := ⟨0, 0, 0, 0, false⟩

/-- `DummyCanvas.GetExtents`: the accumulated box expanded by 0.1 percent of
each span. -/
def DummyCanvas.GetExtents (c : DummyCanvas) : ℝ × ℝ × ℝ × ℝ :=
  let xTolerance := (c.maxX - c.minX) * 0.001
  let yTolerance := (c.maxY - c.minY) * 0.001
  (c.minX - xTolerance, c.minY - yTolerance, c.maxX + xTolerance, c.maxY + yTolerance)

/-- `DummyCanvas.updateBounds`. -/
noncomputable def DummyCanvas.updateBounds (c : DummyCanvas) (x y : ℝ) : DummyCanvas :=
  if !c.initialized then
    ⟨x, x, y, y, true⟩
  else
    { c with minX := if x < c.minX then x else c.minX,
             maxX := if x > c.maxX then x else c.maxX,
             minY := if y < c.minY then y else c.minY,
             maxY := if y > c.maxY then y else c.maxY }

/-- `DummyCanvas.SetStyle`: a no-op. -/
def DummyCanvas.SetStyle (c : DummyCanvas) (_ : StrokeStyle) : Except GoErr DummyCanvas :=
  .ok c

/-- `DummyCanvas.DrawLine`: update the bounds with the start and end points. -/
noncomputable def DummyCanvas.DrawLine (c : DummyCanvas) (x y angle distance : ℝ) :
    Except GoErr DummyCanvas :=
  let c := c.updateBounds x y
  let p := moveDegrees x y angle distance
  .ok (c.updateBounds p.1 p.2)

/-- `DummyCanvas.DrawArc`: include the full circle's bounding box. -/
noncomputable def DummyCanvas.DrawArc (c : DummyCanvas) (x y angle radius _degrees : ℝ) :
    Except GoErr DummyCanvas :=
  let center := moveDegrees x y (angle + 90) radius
  let c := c.updateBounds center.1 (center.2 + radius)
  let c := c.updateBounds center.1 (center.2 - radius)
  let c := c.updateBounds (center.1 + radius) center.2
  .ok (c.updateBounds (center.1 - radius) center.2)

/-- The `Canvas` instance of `DummyCanvas`. -/
noncomputable def dummyCanvas : Canvas DummyCanvas :=
  ⟨DummyCanvas.SetStyle, DummyCanvas.DrawLine, DummyCanvas.DrawArc⟩

/-- Model of `image.RGBA`: the pixel rectangle `[0,w) x [0,h)` and the color
at each pixel.  `Set` outside the rectangle is a no-op, `At` outside it
returns the zero color, as in Go's image package. -/
structure RGBAImage where
  w : ℤ
  h : ℤ
  data : ℤ → ℤ → Color

def RGBAImage.Set (img : RGBAImage) (x y : ℤ) (c : Color) : RGBAImage :=
  if 0 ≤ x ∧ x < img.w ∧ 0 ≤ y ∧ y < img.h then
    { img with data := fun u v => if u = x ∧ v = y then c else img.data u v }
  else img

def RGBAImage.At (img : RGBAImage) (x y : ℤ) : Color :=
  if 0 ≤ x ∧ x < img.w ∧ 0 ≤ y ∧ y < img.h then img.data x y else zeroColor

/-- The `abs` helper of the raster canvas file (integer absolute value). -/
def intAbs (x : ℤ) : ℤ :=
  if x ≥ 0 then x else -x

/-- The `RGBACanvas`: style, pixel buffer, pixel dimensions, coordinate-space
bounds and the per-axis pixel scales. -/
structure RGBACanvas where
  style : StrokeStyle
  pic : RGBAImage
  pixelsWide : ℤ
  pixelsTall : ℤ
  minX : ℝ
  maxX : ℝ
  minY : ℝ
  maxY : ℝ
  dX : ℝ
  dY : ℝ

/-- `NewRGBACanvas`: validates the arguments, allocates the buffer filled with
the background color, and derives the per-axis scales.  The Go error messages
interpolate the offending numbers; the messages are modelled without them. -/
noncomputable def NewRGBACanvas (pixelsWide pixelsTall : ℤ) (minX minY maxX maxY : ℝ)
    (background : Color) : Except GoErr RGBACanvas :=
  if pixelsWide ≤ 0 then
    .error (.mk "Pixels wide must be positive")
  else if pixelsTall ≤ 0 then
    .error (.mk "Pixels tall must be positive")
  else if maxX ≤ minX then
    .error (.mk "Min X boundary must be less than the max X boundary")
  else if maxY ≤ minY then
    .error (.mk "Min Y boundary must be less than the max Y boundary")
  else
    let pic0 : RGBAImage := ⟨pixelsWide, pixelsTall, fun _ _ => zeroColor⟩
    let pic := (List.range pixelsTall.toNat).foldl (fun img y =>
      (List.range pixelsWide.toNat).foldl (fun img x =>
        img.Set (x : ℤ) (y : ℤ) background) img) pic0
    .ok { style := GetColorStyle blackColor
          pic := pic
          pixelsWide := pixelsWide
          pixelsTall := pixelsTall
          minX := minX
          maxX := maxX
          minY := minY
          maxY := maxY
          dX := (maxX - minX) / (pixelsWide : ℝ)
          dY := (maxY - minY) / (pixelsTall : ℝ) }

/-- `RGBACanvas.SetStyle`. -/
def RGBACanvas.SetStyle (c : RGBACanvas) (s : StrokeStyle) : Except GoErr RGBACanvas :=
  .ok { c with style := s }

/-- `RGBACanvas.PointToPixel`: coordinate space to pixel indices, flipping Y. -/
noncomputable def RGBACanvas.PointToPixel (c : RGBACanvas) (x y : ℝ) : ℤ × ℤ :=
  let yMax := c.pixelsTall - 1
  let pixelsX := goTrunc ((x - c.minX) / c.dX)
  let pixelsY := goTrunc ((y - c.minY) / c.dY)
  (pixelsX, yMax - pixelsY)

/-- One step of the Bresenham loop in `drawLine`.  The fuel argument bounds
the iteration count (the algorithm reaches the end point within
`|dx| + |dy| + 1` steps from the initial conditions `drawLine` sets up). -/
def drawLineLoop (style : StrokeStyle) (x1 y1 dx dy sx sy : ℤ) :
    ℕ → ℤ → ℤ → ℤ → RGBAImage → RGBAImage
  | 0, _, _, _, pic => pic
  | fuel + 1, x0, y0, err, pic =>
      let pic := pic.Set x0 y0 style.GetColor
      if x0 = x1 ∧ y0 = y1 then pic
      else
        let e2 := err
        let err2 := if e2 > -dx then err - dy else err
        let x2 := if e2 > -dx then x0 + sx else x0
        let err3 := if e2 < dy then err2 + dx else err2
        let y2 := if e2 < dy then y0 + sy else y0
        drawLineLoop style x1 y1 dx dy sx sy fuel x2 y2 err3 pic

/-- `drawLine` from the raster canvas file (Bresenham's line algorithm). -/
def drawLine (x0 y0 x1 y1 : ℤ) (pic : RGBAImage) (style : StrokeStyle) : RGBAImage :=
  let dx := intAbs (x1 - x0)
  let sx : ℤ := if x0 ≥ x1 then -1 else 1
  let dy := intAbs (y1 - y0)
  let sy : ℤ := if y0 ≥ y1 then -1 else 1
  let err := if dx ≤ dy then goDiv (-dy) 2 else goDiv dx 2
  drawLineLoop style x1 y1 dx dy sx sy (dx + dy + 1).toNat x0 y0 err pic

/-- `RGBACanvas.DrawLine`. -/
noncomputable def RGBACanvas.DrawLine (c : RGBACanvas) (x y angle length : ℝ) :
    Except GoErr RGBACanvas :=
  let p0 := c.PointToPixel x y
  let pn := moveDegrees x y angle length
  let p1 := c.PointToPixel pn.1 pn.2
  .ok { c with pic := drawLine p0.1 p0.2 p1.1 p1.2 c.pic c.style }

/-- The sweep normalization at the top of `RGBACanvas.DrawArc`: a negative
sweep becomes `360 - degrees`, then anything above 360 is clamped to 360. -/
noncomputable def normalizeSweep (degrees : ℝ) : ℝ :=
  let d := if degrees < 0 then 360 - degrees else degrees
  if d > 360 then 360 else d

/-- The sample count of `RGBACanvas.DrawArc`: the radius in pixels along each
axis is `int(|radius|/dAxis) + 1` (Go `int` truncation), and the larger one
times 7 is the number of samples. -/
noncomputable def arcSampleCount (dX dY radius : ℝ) : ℤ :=
  let absRadius := if radius < 0 then -radius else radius
  let radiusPixelsX := goTrunc (absRadius / dX) + 1
  let radiusPixelsY := goTrunc (absRadius / dY) + 1
  if radiusPixelsX ≥ radiusPixelsY then radiusPixelsX * 7 else radiusPixelsY * 7

/-- The angular step between two consecutive arc samples: the normalized
sweep divided uniformly among the samples. -/
noncomputable def arcStepDegrees (dX dY radius degrees : ℝ) : ℝ :=
  normalizeSweep degrees / ((arcSampleCount dX dY radius : ℤ) : ℝ)

/-- `RGBACanvas.DrawArc`: normalize the sweep, derive the sample count from
the pixel-space radius, then plot one pixel per sample stepping uniformly in
angle from the turtle's starting angular position `angle - 90`. -/
noncomputable def RGBACanvas.DrawArc (c : RGBACanvas) (x y angle radius degrees : ℝ) :
    Except GoErr RGBACanvas :=
  let center := moveDegrees x y (angle + 90) radius
  let sampleCount := arcSampleCount c.dX c.dY radius
  let dA := arcStepDegrees c.dX c.dY radius degrees
  let pic := (List.range sampleCount.toNat).foldl (fun img i =>
    let currentAngle := (angle - 90) + (i : ℝ) * dA
    let p := moveDegrees center.1 center.2 currentAngle radius
    let px := c.PointToPixel p.1 p.2
    img.Set px.1 px.2 c.style.GetColor) c.pic
  .ok { c with pic := pic }

/-- The `Canvas` instance of `RGBACanvas`. -/
noncomputable def rgbaCanvas : Canvas RGBACanvas :=
  ⟨RGBACanvas.SetStyle, RGBACanvas.DrawLine, RGBACanvas.DrawArc⟩

/-- One recorded canvas call: the tracing canvas below is used to state which
draw calls an instruction issues. -/
inductive CanvasCall where
  | setStyle (s : StrokeStyle)
  | drawLine (x y angle length : ℝ)
  | drawArc (x y angle radius degrees : ℝ)

/-- A canvas that records every call it receives and never fails. -/
def traceCanvas : Canvas (List CanvasCall) :=
  ⟨fun tr s => .ok (tr ++ [.setStyle s]),
   fun tr x y a l => .ok (tr ++ [.drawLine x y a l]),
   fun tr x y a r d => .ok (tr ++ [.drawArc x y a r d])⟩

/-- Whether an instruction is `popPosition`. -/
def isPop : Instruction → Bool
  | .popPosition => true
  | _ => false

/-- Whether an instruction is `pushPosition`. -/
def isPush : Instruction → Bool
  | .pushPosition => true
  | _ => false

/-- Every prefix of `l` has at most `m` more pops than pushes: starting from
a stack of `m` saved positions, no pop underflows. -/
def popsBounded (l : List Instruction) (m : ℕ) : Prop :=
  ∀ k, (l.take k).countP isPop ≤ (l.take k).countP isPush + m

/-- A canvas all of whose operations succeed on every input. -/
def CanvasNeverFails {σ : Type} (c : Canvas σ) : Prop :=
  (∀ s st, ∃ s2, c.SetStyle s st = .ok s2) ∧
  (∀ s x y a l, ∃ s2, c.DrawLine s x y a l = .ok s2) ∧
  (∀ s x y a r d, ∃ s2, c.DrawArc s x y a r d = .ok s2)

/-- The arc sample count as the specification's words state it: each
radius-in-pixels computed as `ceil(|radius|/dAxis) + 1`.  Declared only to be
compared against `arcSampleCount`, which models the code. -/
noncomputable def specArcSampleCount (dX dY radius : ℝ) : ℤ :=
  let absRadius := if radius < 0 then -radius else radius
  let radiusPixelsX := ⌈absRadius / dX⌉ + 1
  let radiusPixelsY := ⌈absRadius / dY⌉ + 1
  if radiusPixelsX ≥ radiusPixelsY then radiusPixelsX * 7 else radiusPixelsY * 7

/-- `goMod x 360` differs from `x` by an integer multiple of 360. -/
lemma goMod360_sub_int (x : ℝ) : ∃ k : ℤ, goMod x 360 = x + 360 * k :=
  ⟨-goTrunc (x / 360), by unfold goMod; push_cast; ring⟩

/-- C1: applying `MoveArc(radius, degrees)` from position `(x, y)` and
heading `angle` issues exactly one `DrawArc(x, y, angle, radius, degrees)`
call (the trace grows by exactly that call), then sets the turtle's position
to `moveDegrees(center, degrees + (angle - 90), radius)` where
`center = moveDegrees(x, y, angle + 90, radius)`, and its heading to
`(angle + degrees) mod 360` (Go `math.Mod`). -/
theorem c1_moveArc_apply (t : Turtle) (radius degrees : ℝ) (tr : List CanvasCall) :
    (Instruction.moveArc radius degrees).apply t traceCanvas tr =
      (none,
       { t with position :=
          ⟨(moveDegrees (moveDegrees t.position.x t.position.y (t.position.angle + 90) radius).1
              (moveDegrees t.position.x t.position.y (t.position.angle + 90) radius).2
              (degrees + (t.position.angle - 90)) radius).1,
           (moveDegrees (moveDegrees t.position.x t.position.y (t.position.angle + 90) radius).1
              (moveDegrees t.position.x t.position.y (t.position.angle + 90) radius).2
              (degrees + (t.position.angle - 90)) radius).2,
           goMod (t.position.angle + degrees) 360⟩ },
       tr ++ [CanvasCall.drawArc t.position.x t.position.y t.position.angle radius degrees]) :=
  rfl

/-- C3: applying `PopPosition` to a turtle with an empty position stack
returns the stack-underflow error and leaves the turtle (position, heading
and stack) and the canvas state unchanged. -/
theorem c3_popPosition_empty_stack {σ : Type} (c : Canvas σ) (s : σ) (t : Turtle)
    (h : t.positionStack = []) :
    Instruction.popPosition.apply t c s =
      (some (GoErr.mk "Can't pop the turtle's position: empty stack"), t, s) := by
  simp [Instruction.apply, h]

/-- Witness for C3 at a concrete turtle with an empty stack. -/
theorem c3_popPosition_empty_stack_witness :
    Instruction.popPosition.apply ⟨⟨1, 2, 3⟩, [], []⟩ traceCanvas [] =
      (some (GoErr.mk "Can't pop the turtle's position: empty stack"),
       (⟨⟨1, 2, 3⟩, [], []⟩ : Turtle), ([] : List CanvasCall)) :=
  c3_popPosition_empty_stack traceCanvas [] ⟨⟨1, 2, 3⟩, [], []⟩ rfl

/-- C7: `Turn(d1)` then `Turn(d2)` yields a heading equivalent modulo 360 to
the one produced by the single `Turn(d1+d2)`; neither turn issues an error,
and neither changes the turtle's coordinates or its position stack. -/
theorem c7_turn_additive {σ : Type} (c : Canvas σ) (s : σ) (t : Turtle) (d1 d2 : ℝ) :
    ((Instruction.turn d1).apply t c s).1 = none ∧
    ((Instruction.turn d2).apply ((Instruction.turn d1).apply t c s).2.1 c
        ((Instruction.turn d1).apply t c s).2.2).1 = none ∧
    ((Instruction.turn (d1 + d2)).apply t c s).1 = none ∧
    ((Instruction.turn d2).apply ((Instruction.turn d1).apply t c s).2.1 c
        ((Instruction.turn d1).apply t c s).2.2).2.1.position.x = t.position.x ∧
    ((Instruction.turn d2).apply ((Instruction.turn d1).apply t c s).2.1 c
        ((Instruction.turn d1).apply t c s).2.2).2.1.position.y = t.position.y ∧
    ((Instruction.turn d2).apply ((Instruction.turn d1).apply t c s).2.1 c
        ((Instruction.turn d1).apply t c s).2.2).2.1.positionStack = t.positionStack ∧
    ((Instruction.turn (d1 + d2)).apply t c s).2.1.position.x = t.position.x ∧
    ((Instruction.turn (d1 + d2)).apply t c s).2.1.position.y = t.position.y ∧
    ((Instruction.turn (d1 + d2)).apply t c s).2.1.positionStack = t.positionStack ∧
    ∃ k : ℤ,
      ((Instruction.turn d2).apply ((Instruction.turn d1).apply t c s).2.1 c
          ((Instruction.turn d1).apply t c s).2.2).2.1.position.angle
        = ((Instruction.turn (d1 + d2)).apply t c s).2.1.position.angle + 360 * k := by
  refine ⟨rfl, rfl, rfl, rfl, rfl, rfl, rfl, rfl, rfl, ?_⟩
  show ∃ k : ℤ, goMod (d2 + goMod (d1 + t.position.angle) 360) 360
      = goMod (d1 + d2 + t.position.angle) 360 + 360 * k
  obtain ⟨k1, h1⟩ := goMod360_sub_int (d1 + t.position.angle)
  obtain ⟨k2, h2⟩ := goMod360_sub_int (d2 + goMod (d1 + t.position.angle) 360)
  obtain ⟨k3, h3⟩ := goMod360_sub_int (d1 + d2 + t.position.angle)
  refine ⟨k1 + k2 - k3, ?_⟩
  rw [h2, h1, h3]
  push_cast
  ring

/-- C10: every call of `RGBACanvas.DrawArc` with a negative sweep rasterizes
a full circle: the normalization maps `degrees < 0` to `360 - degrees`, which
exceeds 360 and is then clamped to exactly 360. -/
theorem c10_negative_sweep_full_circle (degrees : ℝ) (h : degrees < 0) :
    normalizeSweep degrees = 360 := by
  simp only [normalizeSweep, if_pos h]
  rw [if_pos (by linarith : (360 : ℝ) - degrees > 360)]

/-- Witness for C10 at the concrete sweep `-90`. -/
theorem c10_negative_sweep_full_circle_witness :
    (-90 : ℝ) < 0 ∧ normalizeSweep (-90) = 360 :=
  ⟨by norm_num, c10_negative_sweep_full_circle (-90) (by norm_num)⟩

/-- C4: a full-circle arc (`MoveArc(r, 360)`) returns the turtle to its
starting coordinates exactly, and to a heading that differs from the starting
heading by an integer multiple of 360 degrees. -/
theorem c4_moveArc_full_circle (t : Turtle) (r : ℝ) (_hr : r ≠ 0) (tr : List CanvasCall) :
    ((Instruction.moveArc r 360).apply t traceCanvas tr).2.1.position.x = t.position.x ∧
    ((Instruction.moveArc r 360).apply t traceCanvas tr).2.1.position.y = t.position.y ∧
    ∃ k : ℤ, ((Instruction.moveArc r 360).apply t traceCanvas tr).2.1.position.angle
      = t.position.angle + 360 * k := by
  refine ⟨?_, ?_, ?_⟩
  · show (t.position.x + Real.cos ((t.position.angle + 90) * Real.pi / 180) * r)
        + Real.cos (((360 : ℝ) + (t.position.angle - 90)) * Real.pi / 180) * r = t.position.x
    have harg : ((360 : ℝ) + (t.position.angle - 90)) * Real.pi / 180
        = (t.position.angle + 90) * Real.pi / 180 + Real.pi := by ring
    rw [harg, Real.cos_add, Real.cos_pi, Real.sin_pi]
    ring
  · show (t.position.y + Real.sin ((t.position.angle + 90) * Real.pi / 180) * r)
        + Real.sin (((360 : ℝ) + (t.position.angle - 90)) * Real.pi / 180) * r = t.position.y
    have harg : ((360 : ℝ) + (t.position.angle - 90)) * Real.pi / 180
        = (t.position.angle + 90) * Real.pi / 180 + Real.pi := by ring
    rw [harg, Real.sin_add, Real.cos_pi, Real.sin_pi]
    ring
  · show ∃ k : ℤ, goMod (t.position.angle + 360) 360 = t.position.angle + 360 * k
    obtain ⟨k, hk⟩ := goMod360_sub_int (t.position.angle + 360)
    exact ⟨k + 1, by rw [hk]; push_cast; ring⟩

/-- Witness for C4 at the concrete radius 1 and the fresh turtle. -/
theorem c4_moveArc_full_circle_witness :
    (1 : ℝ) ≠ 0 ∧
    (((Instruction.moveArc 1 360).apply NewTurtle traceCanvas []).2.1.position.x
        = NewTurtle.position.x ∧
     ((Instruction.moveArc 1 360).apply NewTurtle traceCanvas []).2.1.position.y
        = NewTurtle.position.y ∧
     ∃ k : ℤ, ((Instruction.moveArc 1 360).apply NewTurtle traceCanvas []).2.1.position.angle
        = NewTurtle.position.angle + 360 * k) :=
  ⟨one_ne_zero, c4_moveArc_full_circle NewTurtle 1 one_ne_zero []⟩

/-- C6: `NewRGBACanvas` fails exactly when `pixelsWide ≤ 0`, `pixelsTall ≤ 0`,
`maxX ≤ minX` or `maxY ≤ minY`; when none of those hold it succeeds, with the
scales `dX = (maxX-minX)/pixelsWide` and `dY = (maxY-minY)/pixelsTall`. -/
theorem c6_NewRGBACanvas_validation (pixelsWide pixelsTall : ℤ)
    (minX minY maxX maxY : ℝ) (background : Color) :
    ((pixelsWide ≤ 0 ∨ pixelsTall ≤ 0 ∨ maxX ≤ minX ∨ maxY ≤ minY) →
       ∃ e, NewRGBACanvas pixelsWide pixelsTall minX minY maxX maxY background
         = .error e) ∧
    (¬(pixelsWide ≤ 0 ∨ pixelsTall ≤ 0 ∨ maxX ≤ minX ∨ maxY ≤ minY) →
       ∃ cv, NewRGBACanvas pixelsWide pixelsTall minX minY maxX maxY background
           = .ok cv ∧
         cv.dX = (maxX - minX) / (pixelsWide : ℝ) ∧
         cv.dY = (maxY - minY) / (pixelsTall : ℝ)) := by
  constructor
  · intro h
    unfold NewRGBACanvas
    by_cases h1 : pixelsWide ≤ 0
    · rw [if_pos h1]; exact ⟨_, rfl⟩
    rw [if_neg h1]
    by_cases h2 : pixelsTall ≤ 0
    · rw [if_pos h2]; exact ⟨_, rfl⟩
    rw [if_neg h2]
    by_cases h3 : maxX ≤ minX
    · rw [if_pos h3]; exact ⟨_, rfl⟩
    rw [if_neg h3]
    have h4 : maxY ≤ minY := by tauto
    rw [if_pos h4]
    exact ⟨_, rfl⟩
  · intro h
    push_neg at h
    obtain ⟨h1, h2, h3, h4⟩ := h
    unfold NewRGBACanvas
    rw [if_neg (not_le.mpr h1), if_neg (not_le.mpr h2), if_neg (not_le.mpr h3),
        if_neg (not_le.mpr h4)]
    exact ⟨_, rfl, rfl, rfl⟩

/-- Witness for C6: a zero-width canvas fails, a 2x2 canvas over the unit
square succeeds with scales 1/2. -/
theorem c6_NewRGBACanvas_validation_witness :
    (∃ e, NewRGBACanvas 0 2 0 0 1 1 zeroColor = .error e) ∧
    (∃ cv, NewRGBACanvas 2 2 0 0 1 1 zeroColor = .ok cv ∧
       cv.dX = ((1 : ℝ) - 0) / ((2 : ℤ) : ℝ) ∧ cv.dY = ((1 : ℝ) - 0) / ((2 : ℤ) : ℝ)) :=
  ⟨(c6_NewRGBACanvas_validation 0 2 0 0 1 1 zeroColor).1 (Or.inl le_rfl),
   (c6_NewRGBACanvas_validation 2 2 0 0 1 1 zeroColor).2 (by push_neg; norm_num)⟩

/-- If the first `i` instructions of `l` replay without error and the `i`-th
(0-based) then fails, the replay loop stops there and wraps the failure with
the 1-based position `j + i + 1` (`j` is the loop's starting index), the
total count and the failing instruction. -/
lemma renderLoop_error_at {σ : Type} (c : Canvas σ) (total : ℕ) :
    ∀ (l : List Instruction) (i j : ℕ) (t : Turtle) (s : σ) (hi : i < l.length)
      (ti : Turtle) (si : σ) (e : GoErr) (tf : Turtle) (sf : σ),
      runInstructions c (l.take i) t s = (none, ti, si) →
      (l.get ⟨i, hi⟩).apply ti c si = (some e, tf, sf) →
      renderLoop c total l j t s
        = (some (.renderWrap (j + i + 1) total (l.get ⟨i, hi⟩) e), tf, sf) := by
  intro l
  induction l with
  | nil =>
    intro i j t s hi
    exact absurd hi (by simp)
  | cons n rest ih =>
    intro i j t s hi ti si e tf sf hpre hfail
    cases i with
    | zero =>
      simp only [List.take_zero, runInstructions, Prod.mk.injEq] at hpre
      obtain ⟨-, hti, hsi⟩ := hpre
      subst hti
      subst hsi
      have hget : (n :: rest).get ⟨0, hi⟩ = n := rfl
      rw [hget] at hfail ⊢
      simp only [renderLoop, hfail]
    | succ i =>
      rw [List.take_succ_cons] at hpre
      rcases happ : n.apply t c s with ⟨eo, t1, s1⟩
      cases eo with
      | some e0 =>
        simp only [runInstructions, happ, Prod.mk.injEq] at hpre
        exact absurd hpre.1 (Option.some_ne_none e0)
      | none =>
        simp only [runInstructions, happ] at hpre
        have hi2 : i < rest.length := by simpa using hi
        have hget : (n :: rest).get ⟨i + 1, hi⟩ = rest.get ⟨i, hi2⟩ := rfl
        rw [hget] at hfail ⊢
        simp only [renderLoop, happ]
        have harith : j + (i + 1) + 1 = (j + 1) + i + 1 := by omega
        rw [harith]
        exact ih i (j + 1) t1 s1 hi2 ti si e tf sf hpre hfail

/-- C2: `RenderToCanvas` resets the turtle to position `(0,0,0)` with an
empty stack, then applies the instructions in order; if the instructions
before index `i` (0-based) succeed from that reset state and instruction `i`
fails with `e`, the replay returns immediately with an error carrying the
1-based index `i + 1`, the total instruction count and the failing
instruction (whose `String()` description Go interpolates), wrapping `e`. -/
theorem c2_renderToCanvas_error {σ : Type} (c : Canvas σ) (s : σ) (t : Turtle)
    (i : ℕ) (hi : i < t.instructions.length) (ti : Turtle) (si : σ) (e : GoErr)
    (tf : Turtle) (sf : σ)
    (hpre : runInstructions c (t.instructions.take i) (resetTurtle t) s = (none, ti, si))
    (hfail : (t.instructions.get ⟨i, hi⟩).apply ti c si = (some e, tf, sf)) :
    t.RenderToCanvas c s
      = (some (.renderWrap (i + 1) t.instructions.length (t.instructions.get ⟨i, hi⟩) e),
         tf, sf) := by
  have h := renderLoop_error_at c t.instructions.length t.instructions i 0
    (resetTurtle t) s hi ti si e tf sf hpre hfail
  simpa [Turtle.RenderToCanvas] using h

/-- Witness for C2: a lone `PopPosition` fails at instruction 1 of 1 with the
stack-underflow error wrapped. -/
theorem c2_renderToCanvas_error_witness :
    Turtle.RenderToCanvas ⟨⟨0, 0, 0⟩, [], [Instruction.popPosition]⟩ dummyCanvas
        NewDummyCanvas
      = (some (GoErr.renderWrap 1 1 Instruction.popPosition
          (GoErr.mk "Can't pop the turtle's position: empty stack")),
         (⟨⟨0, 0, 0⟩, [], [Instruction.popPosition]⟩ : Turtle), NewDummyCanvas) :=
  c2_renderToCanvas_error dummyCanvas NewDummyCanvas
    ⟨⟨0, 0, 0⟩, [], [Instruction.popPosition]⟩ 0 (by decide) _ _ _ _ _ rfl rfl

/-- C8: the whole result of a replay (error, final turtle, final canvas
state) depends only on the instruction sequence: every call starts from
position `(0,0,0)` and an empty stack, so two turtles with the same
instructions replay identically whatever their current position or stack
(for example, left over from earlier replays). -/
theorem c8_render_depends_only_on_instructions {σ : Type} (c : Canvas σ) (s : σ)
    (t1 t2 : Turtle) (h : t1.instructions = t2.instructions) :
    t1.RenderToCanvas c s = t2.RenderToCanvas c s := by
  unfold Turtle.RenderToCanvas resetTurtle
  rw [h]

/-- Witness for C8: a turtle with a stale position and stack replays exactly
like the fresh turtle. -/
theorem c8_render_depends_only_on_instructions_witness :
    Turtle.RenderToCanvas ⟨⟨5, 6, 7⟩, [⟨1, 1, 1⟩], []⟩ traceCanvas []
      = Turtle.RenderToCanvas NewTurtle traceCanvas [] :=
  c8_render_depends_only_on_instructions traceCanvas [] ⟨⟨5, 6, 7⟩, [⟨1, 1, 1⟩], []⟩
    NewTurtle rfl

/-- C5 counterexample: with pixel scales `dX = dY = 2` and radius 3 (ratio
1.5), the code's sample count is `(trunc(1.5)+1)*7 = 14`, while the claim's
`ceil`-based formula gives `(ceil(1.5)+1)*7 = 21`. -/
theorem c5_arcSampleCount_counterexample :
    arcSampleCount 2 2 3 = 14 ∧ specArcSampleCount 2 2 3 = 21 ∧
    arcSampleCount 2 2 3 ≠ specArcSampleCount 2 2 3 := by
  have hfloor : ⌊(3 : ℝ) / 2⌋ = 1 := by
    rw [Int.floor_eq_iff]
    norm_num
  have hceil : ⌈(3 : ℝ) / 2⌉ = 2 := by
    rw [Int.ceil_eq_iff]
    norm_num
  have h1 : arcSampleCount 2 2 3 = 14 := by
    simp only [arcSampleCount, goTrunc]
    rw [if_neg (by norm_num : ¬(3 : ℝ) < 0),
        if_pos (by norm_num : (0 : ℝ) ≤ 3 / 2), hfloor,
        if_pos (by norm_num : (1 : ℤ) + 1 ≥ 1 + 1)]
    norm_num
  have h2 : specArcSampleCount 2 2 3 = 21 := by
    simp only [specArcSampleCount]
    rw [if_neg (by norm_num : ¬(3 : ℝ) < 0), hceil,
        if_pos (by norm_num : (2 : ℤ) + 1 ≥ 2 + 1)]
    norm_num
  refine ⟨h1, h2, ?_⟩
  rw [h1, h2]
  norm_num

/-- C5 amended: each radius-in-pixels in `RGBACanvas.DrawArc` is
`floor(|radius|/dAxis) + 1` (Go `int` truncation of the nonnegative ratio),
not `ceil(|radius|/dAxis) + 1`; the sample count is the larger one times 7,
and the normalized sweep is divided uniformly among the samples. -/
theorem c5_arcSampleCount_floor (dX dY radius : ℝ) (hx : 0 < dX) (hy : 0 < dY) :
    arcSampleCount dX dY radius
      = max (⌊|radius| / dX⌋ + 1) (⌊|radius| / dY⌋ + 1) * 7 ∧
    ∀ degrees, arcStepDegrees dX dY radius degrees
      = normalizeSweep degrees / ((arcSampleCount dX dY radius : ℤ) : ℝ) := by
  constructor
  · have habs : (if radius < 0 then -radius else radius) = |radius| := by
      rcases lt_or_le radius 0 with h | h
      · rw [if_pos h, abs_of_neg h]
      · rw [if_neg (not_lt.mpr h), abs_of_nonneg h]
    have hX : goTrunc (|radius| / dX) = ⌊|radius| / dX⌋ := by
      unfold goTrunc
      rw [if_pos (div_nonneg (abs_nonneg radius) hx.le)]
    have hY : goTrunc (|radius| / dY) = ⌊|radius| / dY⌋ := by
      unfold goTrunc
      rw [if_pos (div_nonneg (abs_nonneg radius) hy.le)]
    simp only [arcSampleCount]
    rw [habs, hX, hY]
    by_cases hc : ⌊|radius| / dX⌋ + 1 ≥ ⌊|radius| / dY⌋ + 1
    · rw [if_pos hc, max_eq_left hc]
    · rw [if_neg hc, max_eq_right (le_of_lt (lt_of_not_ge hc))]
  · intro degrees
    rfl

/-- Witness for the amended C5 at the unit scales and radius 0. -/
theorem c5_arcSampleCount_floor_witness :
    (0 : ℝ) < 1 ∧
    (arcSampleCount 1 1 0 = max (⌊|(0 : ℝ)| / 1⌋ + 1) (⌊|(0 : ℝ)| / 1⌋ + 1) * 7 ∧
     ∀ degrees, arcStepDegrees 1 1 0 degrees
       = normalizeSweep degrees / ((arcSampleCount 1 1 0 : ℤ) : ℝ)) :=
  ⟨by norm_num, c5_arcSampleCount_floor 1 1 0 (by norm_num) (by norm_num)⟩

lemma popsBounded_nil (m : ℕ) : popsBounded [] m := by
  intro k
  simp

/-- An instruction that is neither a push nor a pop does not change the
underflow condition. -/
lemma popsBounded_cons_neutral (n : Instruction) (l : List Instruction) (m : ℕ)
    (h1 : isPop n = false) (h2 : isPush n = false) :
    popsBounded (n :: l) m ↔ popsBounded l m := by
  constructor
  · intro h k
    have hk := h (k + 1)
    simpa [List.take_succ_cons, List.countP_cons, h1, h2] using hk
  · intro h k
    cases k with
    | zero => simp
    | succ k =>
      have hk := h k
      simpa [List.take_succ_cons, List.countP_cons, h1, h2] using hk

lemma popsBounded_cons_push (l : List Instruction) (m : ℕ) :
    popsBounded (.pushPosition :: l) m ↔ popsBounded l (m + 1) := by
  constructor
  · intro h k
    have hk := h (k + 1)
    simp [List.take_succ_cons, List.countP_cons, isPop, isPush] at hk
    omega
  · intro h k
    cases k with
    | zero => simp
    | succ k =>
      have hk := h k
      simp [List.take_succ_cons, List.countP_cons, isPop, isPush]
      omega

lemma popsBounded_cons_pop_zero (l : List Instruction) :
    ¬ popsBounded (.popPosition :: l) 0 := by
  intro h
  have h1 := h 1
  simp [List.take_succ_cons, List.countP_cons, isPop, isPush] at h1

lemma popsBounded_cons_pop_succ (l : List Instruction) (m : ℕ) :
    popsBounded (.popPosition :: l) (m + 1) ↔ popsBounded l m := by
  constructor
  · intro h k
    have hk := h (k + 1)
    simp [List.take_succ_cons, List.countP_cons, isPop, isPush] at hk
    omega
  · intro h k
    cases k with
    | zero => simp
    | succ k =>
      have hk := h k
      simp [List.take_succ_cons, List.countP_cons, isPop, isPush]
      omega

/-- The replay loop over a canvas whose operations never fail errors exactly
when some prefix pops more positions than it pushed on top of the `m`
positions already on the stack. -/
lemma renderLoop_none_iff {σ : Type} (c : Canvas σ) (hc : CanvasNeverFails c)
    (total : ℕ) :
    ∀ (l : List Instruction) (i : ℕ) (t : Turtle) (s : σ),
      (renderLoop c total l i t s).1 = none ↔
        popsBounded l t.positionStack.length := by
  intro l
  induction l with
  | nil =>
    intro i t s
    exact iff_of_true rfl (popsBounded_nil _)
  | cons n rest ih =>
    intro i t s
    cases n with
    | moveForward distance =>
      obtain ⟨s2, hs2⟩ := hc.2.1 s t.position.x t.position.y t.position.angle distance
      simp only [renderLoop, Instruction.apply, hs2]
      rw [ih]
      exact (popsBounded_cons_neutral (.moveForward distance) rest _ rfl rfl).symm
    | turn degrees =>
      simp only [renderLoop, Instruction.apply]
      rw [ih]
      exact (popsBounded_cons_neutral (.turn degrees) rest _ rfl rfl).symm
    | setStyle style =>
      obtain ⟨s2, hs2⟩ := hc.1 s style
      simp only [renderLoop, Instruction.apply, hs2]
      rw [ih]
      exact (popsBounded_cons_neutral (.setStyle style) rest _ rfl rfl).symm
    | moveArc radius degrees =>
      obtain ⟨s2, hs2⟩ := hc.2.2 s t.position.x t.position.y t.position.angle radius degrees
      simp only [renderLoop, Instruction.apply, hs2]
      rw [ih]
      exact (popsBounded_cons_neutral (.moveArc radius degrees) rest _ rfl rfl).symm
    | pushPosition =>
      simp only [renderLoop, Instruction.apply]
      rw [ih]
      have hlen : ({ t with positionStack := t.positionStack ++ [t.position] }
          : Turtle).positionStack.length = t.positionStack.length + 1 := by
        simp
      rw [hlen]
      exact (popsBounded_cons_push rest _).symm
    | popPosition =>
      obtain ⟨pos, stack, instrs⟩ := t
      rcases stack with _ | ⟨p, ps⟩
      · simp only [renderLoop, Instruction.apply]
        exact iff_of_false (by simp) (popsBounded_cons_pop_zero rest)
      · simp only [renderLoop, Instruction.apply, List.length_cons, Nat.add_sub_cancel]
        have hcond : ¬(ps.length + 1 = 0) := Nat.succ_ne_zero _
        rw [if_neg hcond]
        rw [ih]
        have hlen : ((p :: ps).take ps.length).length = ps.length := by
          rw [List.length_take, List.length_cons]
          omega
        rw [hlen]
        exact (popsBounded_cons_pop_succ rest ps.length).symm

lemma dummyCanvas_neverFails : CanvasNeverFails dummyCanvas :=
  ⟨fun s _ => ⟨s, rfl⟩,
   fun _ _ _ _ _ => ⟨_, rfl⟩,
   fun _ _ _ _ _ _ => ⟨_, rfl⟩⟩

lemma rgbaCanvas_neverFails : CanvasNeverFails rgbaCanvas :=
  ⟨fun _ _ => ⟨_, rfl⟩,
   fun _ _ _ _ _ => ⟨_, rfl⟩,
   fun _ _ _ _ _ _ => ⟨_, rfl⟩⟩

/-- Over a canvas whose operations never fail, a replay errors exactly when
some prefix of the instruction list holds strictly more pops than pushes. -/
lemma render_error_iff_underflow_of_neverFails {σ : Type} (c : Canvas σ)
    (hc : CanvasNeverFails c) (t : Turtle) (s : σ) :
    (∃ e, (t.RenderToCanvas c s).1 = some e) ↔
      ∃ k, (t.instructions.take k).countP isPush
        < (t.instructions.take k).countP isPop := by
  have h := renderLoop_none_iff c hc t.instructions.length t.instructions 0
    (resetTurtle t) s
  have h0 : (resetTurtle t).positionStack.length = 0 := rfl
  rw [h0] at h
  constructor
  · rintro ⟨e, he⟩
    unfold Turtle.RenderToCanvas at he
    have hne : ¬ popsBounded t.instructions 0 := by
      intro hp
      rw [h.mpr hp] at he
      exact Option.noConfusion he
    unfold popsBounded at hne
    push_neg at hne
    obtain ⟨k, hk⟩ := hne
    exact ⟨k, by omega⟩
  · rintro ⟨k, hk⟩
    unfold Turtle.RenderToCanvas
    rcases ho : (renderLoop c t.instructions.length t.instructions 0
        (resetTurtle t) s).1 with _ | e
    · exfalso
      have := h.mp ho k
      omega
    · exact ⟨e, rfl⟩

/-- C9: replaying against a `DummyCanvas` or an `RGBACanvas` fails exactly
when some prefix of the instruction sequence holds strictly more
`PopPosition` than `PushPosition` instructions: every `SetStyle`, `DrawLine`
and `DrawArc` of both canvas types succeeds, so stack underflow is the only
possible replay failure. -/
theorem c9_render_error_iff_underflow (t : Turtle) (d : DummyCanvas) (r : RGBACanvas) :
    ((∃ e, (t.RenderToCanvas dummyCanvas d).1 = some e) ↔
      ∃ k, (t.instructions.take k).countP isPush
        < (t.instructions.take k).countP isPop) ∧
    ((∃ e, (t.RenderToCanvas rgbaCanvas r).1 = some e) ↔
      ∃ k, (t.instructions.take k).countP isPush
        < (t.instructions.take k).countP isPop) :=
  ⟨render_error_iff_underflow_of_neverFails dummyCanvas dummyCanvas_neverFails t d,
   render_error_iff_underflow_of_neverFails rgbaCanvas rgbaCanvas_neverFails t r⟩

end TurtleGraphics
